import Mathlib

/-!
Verification of the event-timing and metrics-emission harness in
`src/hotspot/share/gc/shared/gcTraceTime.cpp`.

The file shallowly embeds the two components of that translation unit:

* `GCTraceTimeLoggerImpl` with its member functions `log_start` and
  `log_end` (an event timer that logs a heading line, optional heap-usage
  and major-fault statistics obtained through syscall 452, a duration
  suffix, and — for "Pause Full" events — a faulty-page-index diagnostic
  obtained through syscall 455);
* `GCTraceCPUTime` with its constructor and destructor (a CPU-time
  sampler that reads `os::getTimesSecs` at construction and destruction,
  logs a `User=... Sys=... Real=...` line and forwards the deltas to an
  optional `GCTracer` collaborator).

External collaborators (the heap accessor, the two syscalls, the OS time
source, the log sink and the tracer) are modelled as environment records
holding the result each call would produce; every observable interaction
is recorded in order as an event (`Ev` for the timer, `CEv` for the
sampler), so that claims about which lines are emitted, which external
calls happen and in which order become statements about the event list.
-/

/-- `M` from the HotSpot globalDefinitions: one megabyte, used for the
coarse unit conversion of heap sizes. -/
def M : Nat := 1048576

/-- `SIZE_MAX` for the 64-bit `size_t` used by the source file, both the
"unset" sentinel of `_heap_usage_before` and the value of
`size_t majflt = -1` in `log_end`. -/
def SIZE_MAX : Nat := 18446744073709551615

/-- The `struct swap_stats` filled by syscall 452
(`sys_get_swap_stats`); both fields are C `unsigned int`. -/
structure SwapStats where
  majflt : Nat
  majflt_in_region : Nat
deriving DecidableEq, Repr

/-- Observable events of `log_start` / `log_end`, in program order:
emitted log lines (one per `cr`-terminated line of the `LogStream`) and
the calls into the two external statistics interfaces. -/
inductive Ev where
  | logLine (line : String)
  | swapStatsQuery
  | pageIndexQuery
  | pageIndexReset
deriving DecidableEq, Repr

/-- The log lines contained in an event list, in order. -/
def logLines (evs : List Ev) : List String :=
  evs.filterMap fun e =>
    match e with
    | Ev.logLine l => some l
    | _ => none

def countPageQuery (evs : List Ev) : Nat :=
  (evs.filter fun e => e = Ev.pageIndexQuery).length

def countPageReset (evs : List Ev) : Nat :=
  (evs.filter fun e => e = Ev.pageIndexReset).length

def countSwapQuery (evs : List Ev) : Nat :=
  (evs.filter fun e => e = Ev.swapStatsQuery).length

/-- State of a `GCTraceTimeLoggerImpl`. `_gc_cause` is `none` for
`GCCause::_no_gc` and `some s` for a cause rendered as the string `s` by
`GCCause::to_string`. -/
structure GCTraceTimeLoggerImpl where
  _title : String
  _gc_cause : Option String
  _log_heap_usage : Bool
  _start : Nat
  _heap_usage_before : Nat
  _majflt_before : Nat
deriving DecidableEq, Repr

/-- Modelled from the spec: the `GCTraceTimeLoggerImpl` constructor lives
in `gcTraceTime.hpp` / `gcTraceTime.inline.hpp`, which are not part of the
sources. Per the spec, `usage_before` starts at the explicit "unset"
sentinel (`SIZE_MAX`) and the fault-count-before field starts at a
default value, taken here as the parameter `majflt_default`. -/
def GCTraceTimeLoggerImpl.init (title : String) (cause : Option String)
    (log_heap_usage : Bool) (majflt_default : Nat) : GCTraceTimeLoggerImpl :=
  { _title := title
    _gc_cause := cause
    _log_heap_usage := log_heap_usage
    _start := 0
    _heap_usage_before := SIZE_MAX
    _majflt_before := majflt_default }

/-- Rendering of the optional cause: `" (%s)"` when a cause is set. -/
def causeStr : Option String → String
  | some c => " (" ++ c ++ ")"
  | none => ""

/-- The heading printed by both `log_start` and `log_end`:
`"%s"` of the title followed by the optional cause. -/
def GCTraceTimeLoggerImpl.headingStr (st : GCTraceTimeLoggerImpl) : String :=
  st._title ++ causeStr st._gc_cause

/-- Environment of one `log_start` call: the value
`Universe::heap()->used()` would return, and the result of syscall 452
(`none` means the syscall returned nonzero, i.e. failed). -/
structure StartEnv where
  heapUsed : Nat
  swapQuery : Option SwapStats
deriving DecidableEq, Repr

/-- `GCTraceTimeLoggerImpl::log_start(Ticks start)`: stores the start
tick, logs the heading line, and — when `_log_heap_usage` — snapshots the
heap usage and attempts one read of the major-fault counter, keeping
`_majflt_before` unchanged when the syscall fails. -/
def GCTraceTimeLoggerImpl.log_start (st : GCTraceTimeLoggerImpl) (start : Nat)
    (env : StartEnv) : GCTraceTimeLoggerImpl × List Ev :=
  if st._log_heap_usage then
    ({ st with
        _start := start
        _heap_usage_before := env.heapUsed
        _majflt_before :=
          match env.swapQuery with
          | some stats => stats.majflt
          | none => st._majflt_before },
      [Ev.logLine st.headingStr, Ev.swapStatsQuery])
  else
    ({ st with _start := start }, [Ev.logLine st.headingStr])

/-- Environment of one `log_end` call: the heap accessor results, the
result of the second syscall-452 read, whether the `malloc` of the
2048-entry index buffer succeeds, whether syscall 455 mode 3 succeeds,
and the buffer contents it would fill in. -/
structure EndEnv where
  heapUsed : Nat
  heapCapacity : Nat
  swapQuery : Option SwapStats
  mallocOk : Bool
  pageQueryOk : Bool
  pageBuf : Nat → Nat

/-- The `majflt` local of `log_end`: initialised to `(size_t)-1` and
overwritten only when syscall 452 succeeds. -/
def majfltEnd (env : EndEnv) : Nat :=
  match env.swapQuery with
  | some stats => stats.majflt
  | none => SIZE_MAX

/-- The heap-usage / major-fault segment of the end line:
`" %zuM->%zuM(%zuM) majflt(%zu->%zu)"`. -/
def usageSeg (st : GCTraceTimeLoggerImpl) (env : EndEnv) : String :=
  " " ++ toString (st._heap_usage_before / M) ++ "M->" ++
  toString (env.heapUsed / M) ++ "M(" ++
  toString (env.heapCapacity / M) ++ "M) majflt(" ++
  toString st._majflt_before ++ "->" ++ toString (majfltEnd env) ++ ")"

/-- Modelled from the spec: `TimeHelper::counter_to_millis` and the C
`"%.3f"` double formatting are outside the given sources. The tick
counter is modelled in nanoseconds and the millisecond value is rendered
in decimal with exactly three digits after the point. -/
def pad3 (n : Nat) : String :=
  String.mk [Nat.digitChar (n / 100 % 10), Nat.digitChar (n / 10 % 10),
    Nat.digitChar (n % 10)]

/-- The duration in milliseconds with three decimal digits, from an
elapsed tick count (see `pad3` for the modelling note). -/
def fmt_ms3 (elapsed : Nat) : String :=
  toString (elapsed / 1000000) ++ "." ++ pad3 (elapsed / 1000 % 1000)

/-- `strstr(title, needle) != nullptr` on the character lists. -/
def strContainsAux (needle : List Char) : List Char → Bool
  | [] => needle.isEmpty
  | c :: t => needle.isPrefixOf (c :: t) || strContainsAux needle t

/-- `strstr(hay, needle) != nullptr`. -/
def strContains (hay needle : String) : Bool :=
  strContainsAux needle.toList hay.toList

/-- The first line emitted by `log_end`: heading, then the usage/fault
segment only when `_heap_usage_before` differs from the `SIZE_MAX`
sentinel, then `" %.3fms"`. -/
def endLine (st : GCTraceTimeLoggerImpl) (endTick : Nat) (env : EndEnv) : String :=
  st.headingStr ++
  (if st._heap_usage_before ≠ SIZE_MAX then usageSeg st env else "") ++
  " " ++ fmt_ms3 (endTick - st._start) ++ "ms"

/-- The 2048 comma-terminated entries printed from the index buffer. -/
def pageEntries (env : EndEnv) : List String :=
  (List.range 2048).map fun i => toString (env.pageBuf i) ++ ","

/-- The diagnostic line `"faulty page index: "` followed by the whole
buffer, comma-separated. -/
def pageLine (env : EndEnv) : String :=
  "faulty page index: " ++ String.join (pageEntries env)

/-- The tail of `log_end` guarded by
`_log_heap_usage && strstr(_title, "Pause Full") != nullptr`: when the
`malloc` succeeds, one syscall-455 query and, on its success, the
diagnostic line; in every case one unconditional syscall-455 reset whose
result is ignored. -/
def pauseFullEvs (st : GCTraceTimeLoggerImpl) (env : EndEnv) : List Ev :=
  if st._log_heap_usage && strContains st._title "Pause Full" then
    (if env.mallocOk then
      Ev.pageIndexQuery ::
        (if env.pageQueryOk then [Ev.logLine (pageLine env)] else [])
    else []) ++ [Ev.pageIndexReset]
  else []

/-- `GCTraceTimeLoggerImpl::log_end(Ticks end)`: performs the second
fault-counter read only inside the `_heap_usage_before != SIZE_MAX`
branch, flushes the timing line, then runs the "Pause Full"
diagnostic tail. -/
def GCTraceTimeLoggerImpl.log_end (st : GCTraceTimeLoggerImpl) (endTick : Nat)
    (env : EndEnv) : List Ev :=
  (if st._heap_usage_before ≠ SIZE_MAX then [Ev.swapStatsQuery] else []) ++
  [Ev.logLine (endLine st endTick env)] ++ pauseFullEvs st env

/-- The state after `start` on a freshly constructed timer. -/
def afterStart (title : String) (cause : Option String) (log_heap_usage : Bool)
    (majflt_default : Nat) (startTick : Nat) (env : StartEnv) :
    GCTraceTimeLoggerImpl :=
  ((GCTraceTimeLoggerImpl.init title cause log_heap_usage
      majflt_default).log_start startTick env).1

/-- One result of `os::getTimesSecs`. The three C `double` seconds values
are modelled as exact integers in hundredths of a second. -/
structure TimesSecs where
  real_time : Int
  user_time : Int
  system_time : Int
deriving DecidableEq, Repr

/-- Observable events of the CPU-time sampler, in program order. -/
inductive CEv where
  | shouldReportQuery
  | getTimesSecs
  | logInfo (line : String)
  | logWarning (line : String)
  | reportCpuTimeEvent (user_time system_time real_time : Int)
deriving DecidableEq, Repr

def countShouldReportQuery (evs : List CEv) : Nat :=
  (evs.filter fun e => e = CEv.shouldReportQuery).length

def countGetTimes (evs : List CEv) : Nat :=
  (evs.filter fun e => e = CEv.getTimesSecs).length

/-- The warning text of both `log_warning` calls in the source. -/
def cpuWarnMsg : String :=
  "TraceCPUTime: os::getTimesSecs() returned invalid result"

/-- Modelled from the spec: the C `"%3.2f"` double formatting of
`log_info` is rendered from the hundredths-of-a-second model with two
digits after the point. -/
def pad2 (n : Nat) : String :=
  String.mk [Nat.digitChar (n / 10 % 10), Nat.digitChar (n % 10)]

def fmt2nat (n : Nat) : String :=
  toString (n / 100) ++ "." ++ pad2 (n % 100)

def fmt2 (x : Int) : String :=
  if x < 0 then "-" ++ fmt2nat (-x).toNat else fmt2nat x.toNat

/-- The line `"User=%3.2fs Sys=%3.2fs Real=%3.2fs"` with the three delta
values, in the argument order of the source `log_info` call. -/
def cpuLine (user_time system_time real_time : Int) : String :=
  "User=" ++ fmt2 user_time ++ "s Sys=" ++ fmt2 system_time ++ "s Real=" ++
    fmt2 real_time ++ "s"

/-- State of a `GCTraceCPUTime`. `_tracer` records whether the `GCTracer*`
argument was non-null. -/
structure GCTraceCPUTime where
  _active : Bool
  _starting_user_time : Int
  _starting_system_time : Int
  _starting_real_time : Int
  _tracer : Bool
deriving DecidableEq, Repr

/-- Environment of the constructor: the value of
`log_is_enabled(Info, gc, cpu)`, whether the tracer argument is non-null,
what `tracer->should_report_cpu_time_event()` would return, and the
result of `os::getTimesSecs` (`none` means the read reported invalid
results). -/
structure CPUConsEnv where
  log_is_enabled : Bool
  tracer_present : Bool
  should_report : Bool
  getTimes : Option TimesSecs
deriving DecidableEq, Repr

/-- `GCTraceCPUTime::GCTraceCPUTime(GCTracer*)`: `_active` is the
short-circuit disjunction, so `should_report_cpu_time_event` is queried
only when `log_is_enabled` is false and the tracer is non-null. When
active, one `os::getTimesSecs` read; on an invalid result, a warning and
`_active = false`. -/
def GCTraceCPUTime.construct (env : CPUConsEnv) : GCTraceCPUTime × List CEv :=
  let queryEvs : List CEv :=
    if env.log_is_enabled then []
    else if env.tracer_present then [CEv.shouldReportQuery] else []
  let active0 : Bool :=
    env.log_is_enabled || (env.tracer_present && env.should_report)
  let st0 : GCTraceCPUTime :=
    { _active := active0
      _starting_user_time := 0
      _starting_system_time := 0
      _starting_real_time := 0
      _tracer := env.tracer_present }
  if active0 then
    match env.getTimes with
    | some t =>
        ({ st0 with
            _starting_real_time := t.real_time
            _starting_user_time := t.user_time
            _starting_system_time := t.system_time },
          queryEvs ++ [CEv.getTimesSecs])
    | none =>
        ({ st0 with _active := false },
          queryEvs ++ [CEv.getTimesSecs, CEv.logWarning cpuWarnMsg])
  else (st0, queryEvs)

/-- `GCTraceCPUTime::~GCTraceCPUTime()`: nothing when not `_active`;
otherwise one `os::getTimesSecs` read, and on success the three deltas
are logged and, when the tracer is non-null, forwarded to
`report_cpu_time_event` with identical values; on failure only a
warning. -/
def GCTraceCPUTime.destruct (st : GCTraceCPUTime) (endRead : Option TimesSecs) :
    List CEv :=
  if st._active then
    match endRead with
    | some t =>
        let user_time := t.user_time - st._starting_user_time
        let system_time := t.system_time - st._starting_system_time
        let real_time := t.real_time - st._starting_real_time
        [CEv.getTimesSecs, CEv.logInfo (cpuLine user_time system_time real_time)] ++
          (if st._tracer then
            [CEv.reportCpuTimeEvent user_time system_time real_time]
          else [])
    | none => [CEv.getTimesSecs, CEv.logWarning cpuWarnMsg]
  else []

/-!
Helper lemmas about the embedded operations.
-/

lemma afterStart_true (t : String) (c : Option String) (m s : Nat)
    (env : StartEnv) :
    afterStart t c true m s env =
      { _title := t
        _gc_cause := c
        _log_heap_usage := true
        _start := s
        _heap_usage_before := env.heapUsed
        _majflt_before :=
          match env.swapQuery with
          | some stats => stats.majflt
          | none => m } := by
  cases h : env.swapQuery <;>
    simp [afterStart, GCTraceTimeLoggerImpl.log_start, GCTraceTimeLoggerImpl.init, h]

lemma afterStart_false (t : String) (c : Option String) (m s : Nat)
    (env : StartEnv) :
    afterStart t c false m s env =
      { _title := t
        _gc_cause := c
        _log_heap_usage := false
        _start := s
        _heap_usage_before := SIZE_MAX
        _majflt_before := m } := by
  simp [afterStart, GCTraceTimeLoggerImpl.log_start, GCTraceTimeLoggerImpl.init]

lemma afterStart_start (t : String) (c : Option String) (f : Bool) (m s : Nat)
    (env : StartEnv) : (afterStart t c f m s env)._start = s := by
  cases f
  · rw [afterStart_false]
  · rw [afterStart_true]

lemma logLines_log_end (st : GCTraceTimeLoggerImpl) (endTick : Nat)
    (env : EndEnv) :
    logLines (st.log_end endTick env) =
      endLine st endTick env ::
        (if st._log_heap_usage && strContains st._title "Pause Full" &&
            env.mallocOk && env.pageQueryOk then [pageLine env] else []) := by
  by_cases h1 : st._heap_usage_before = SIZE_MAX <;>
  by_cases h2 : (st._log_heap_usage && strContains st._title "Pause Full") = true <;>
  by_cases h3 : env.mallocOk = true <;>
  by_cases h4 : env.pageQueryOk = true <;>
  simp [GCTraceTimeLoggerImpl.log_end, pauseFullEvs, logLines, h1, h2, h3, h4]

lemma pauseFullEvs_pos (st : GCTraceTimeLoggerImpl) (env : EndEnv)
    (hflag : st._log_heap_usage = true)
    (ht : strContains st._title "Pause Full" = true) :
    pauseFullEvs st env =
      (if env.mallocOk then
        Ev.pageIndexQuery ::
          (if env.pageQueryOk then [Ev.logLine (pageLine env)] else [])
      else []) ++ [Ev.pageIndexReset] := by
  simp [pauseFullEvs, hflag, ht]

/-!
The claims.
-/

/-- C1: after `log_start(s)` and `log_end(e)` with `s ≤ e`, the first
emitted end line ends with the elapsed ticks converted to milliseconds,
rendered with exactly three decimal digits and the suffix "ms" — for
every configuration (usage tracking on or off) and every outcome of the
statistics reads. -/
theorem C1_duration_suffix (t : String) (c : Option String) (f : Bool)
    (m s e : Nat) (env0 : StartEnv) (env1 : EndEnv) (_hse : s ≤ e) :
    ∃ p, (logLines ((afterStart t c f m s env0).log_end e env1)).head? =
        some (p ++ " " ++ fmt_ms3 (e - s) ++ "ms") ∧
      fmt_ms3 (e - s) =
        toString ((e - s) / 1000000) ++ "." ++ pad3 ((e - s) / 1000 % 1000) ∧
      (pad3 ((e - s) / 1000 % 1000)).length = 3 := by
  refine ⟨(afterStart t c f m s env0).headingStr ++
    (if (afterStart t c f m s env0)._heap_usage_before ≠ SIZE_MAX then
      usageSeg (afterStart t c f m s env0) env1 else ""), ?_, rfl, rfl⟩
  rw [logLines_log_end]
  simp [endLine, afterStart_start]

def exStartEnv : StartEnv :=
  { heapUsed := 104857600
    swapQuery := some { majflt := 10, majflt_in_region := 0 } }

def exEndEnv : EndEnv :=
  { heapUsed := 62914560
    heapCapacity := 536870912
    swapQuery := some { majflt := 12, majflt_in_region := 0 }
    mallocOk := true
    pageQueryOk := false
    pageBuf := fun _ => 0 }

theorem C1_duration_suffix_witness :
    ∃ p, (logLines ((afterStart "Pause Young" (some "Allocation Failure") true 0
        3 exStartEnv).log_end 4256003 exEndEnv)).head? =
        some (p ++ " " ++ fmt_ms3 (4256003 - 3) ++ "ms") ∧
      fmt_ms3 (4256003 - 3) =
        toString ((4256003 - 3) / 1000000) ++ "." ++
          pad3 ((4256003 - 3) / 1000 % 1000) ∧
      (pad3 ((4256003 - 3) / 1000 % 1000)).length = 3 :=
  C1_duration_suffix "Pause Young" (some "Allocation Failure") true 0 3 4256003
    exStartEnv exEndEnv (by decide)

/-- C6: with usage tracking disabled, `log_end` emits exactly one event:
a log line consisting of the title, the optional cause and the duration
suffix — no usage segment, no fault segment, no statistics calls. -/
theorem C6_disabled_plain_line (t : String) (c : Option String) (m s e : Nat)
    (env0 : StartEnv) (env1 : EndEnv) :
    (afterStart t c false m s env0).log_end e env1 =
      [Ev.logLine (t ++ causeStr c ++ " " ++ fmt_ms3 (e - s) ++ "ms")] := by
  rw [afterStart_false]
  simp [GCTraceTimeLoggerImpl.log_end, pauseFullEvs, endLine,
    GCTraceTimeLoggerImpl.headingStr]

/-- C9: the usage/fault segment of the end line is gated on the stored
before-snapshot differing from the `SIZE_MAX` sentinel, while the
"Pause Full" diagnostic is gated on the `_log_heap_usage` flag: with
tracking enabled but a start-time heap usage of exactly `SIZE_MAX`
bytes, the end line is the plain title/cause/duration line (and the
second fault-counter read is skipped), yet the page-index query and the
unconditional reset still run. -/
theorem C9_sentinel_gates (t : String) (c : Option String) (m s e : Nat)
    (env0 : StartEnv) (env1 : EndEnv)
    (hused : env0.heapUsed = SIZE_MAX)
    (ht : strContains t "Pause Full" = true) :
    (afterStart t c true m s env0).log_end e env1 =
      Ev.logLine (t ++ causeStr c ++ " " ++ fmt_ms3 (e - s) ++ "ms") ::
      ((if env1.mallocOk then
        Ev.pageIndexQuery ::
          (if env1.pageQueryOk then [Ev.logLine (pageLine env1)] else [])
      else []) ++ [Ev.pageIndexReset]) := by
  rw [afterStart_true]
  simp [GCTraceTimeLoggerImpl.log_end, pauseFullEvs, endLine,
    GCTraceTimeLoggerImpl.headingStr, hused, ht]

def c9StartEnv : StartEnv :=
  { heapUsed := SIZE_MAX
    swapQuery := some { majflt := 10, majflt_in_region := 0 } }

theorem C9_sentinel_gates_witness :
    (afterStart "Pause Full" none true 0 1 c9StartEnv).log_end 5 exEndEnv =
      Ev.logLine ("Pause Full" ++ causeStr none ++ " " ++ fmt_ms3 (5 - 1) ++ "ms") ::
      ((if exEndEnv.mallocOk then
        Ev.pageIndexQuery ::
          (if exEndEnv.pageQueryOk then [Ev.logLine (pageLine exEndEnv)] else [])
      else []) ++ [Ev.pageIndexReset]) :=
  C9_sentinel_gates "Pause Full" none 0 1 5 c9StartEnv exEndEnv (by decide)
    (by decide)

/-- C7: with usage tracking enabled and both fault-counter reads
succeeding (the start snapshot being distinct from the sentinel, so the
second read happens at all), the end line shows `majflt(before->after)`
with exactly the two values as read, and the implied delta is
`after − before` exactly as read. -/
theorem C7_majflt_exact (t : String) (c : Option String) (m s e : Nat)
    (env0 : StartEnv) (env1 : EndEnv) (a b : SwapStats)
    (hused : env0.heapUsed ≠ SIZE_MAX)
    (h1 : env0.swapQuery = some a) (h2 : env1.swapQuery = some b) :
    (logLines ((afterStart t c true m s env0).log_end e env1)).head? =
      some (t ++ causeStr c ++ " " ++ toString (env0.heapUsed / M) ++ "M->" ++
        toString (env1.heapUsed / M) ++ "M(" ++
        toString (env1.heapCapacity / M) ++ "M) majflt(" ++
        toString a.majflt ++ "->" ++ toString b.majflt ++ ")" ++
        " " ++ fmt_ms3 (e - s) ++ "ms") ∧
    majfltEnd env1 - (afterStart t c true m s env0)._majflt_before =
      b.majflt - a.majflt := by
  rw [logLines_log_end, afterStart_true]
  constructor
  · simp [endLine, usageSeg, majfltEnd, GCTraceTimeLoggerImpl.headingStr,
      hused, h1, h2, String.append_assoc]
  · simp [majfltEnd, h1, h2]

theorem C7_majflt_exact_witness :
    (logLines ((afterStart "Pause Young" (some "Allocation Failure") true 0 3
        exStartEnv).log_end 4256003 exEndEnv)).head? =
      some ("Pause Young" ++ causeStr (some "Allocation Failure") ++ " " ++
        toString (exStartEnv.heapUsed / M) ++ "M->" ++
        toString (exEndEnv.heapUsed / M) ++ "M(" ++
        toString (exEndEnv.heapCapacity / M) ++ "M) majflt(" ++
        toString (10 : Nat) ++ "->" ++ toString (12 : Nat) ++ ")" ++
        " " ++ fmt_ms3 (4256003 - 3) ++ "ms") ∧
    majfltEnd exEndEnv -
      (afterStart "Pause Young" (some "Allocation Failure") true 0 3
        exStartEnv)._majflt_before = 12 - 10 :=
  C7_majflt_exact "Pause Young" (some "Allocation Failure") 0 3 4256003
    exStartEnv exEndEnv { majflt := 10, majflt_in_region := 0 }
    { majflt := 12, majflt_in_region := 0 } (by decide) (by decide) (by decide)

/-- C2: with usage tracking enabled and the fault-counter read failing at
both start and end, the before field stays at its constructor default,
the after field is reported as the `SIZE_MAX` "unknown" sentinel — which
is neither zero nor any value a successful read of the 32-bit counter
could have produced — and the timing line is still emitted, containing
that sentinel and the duration suffix. -/
theorem C2_fault_read_failures (t : String) (c : Option String) (m s e : Nat)
    (env0 : StartEnv) (env1 : EndEnv)
    (hused : env0.heapUsed ≠ SIZE_MAX)
    (h1 : env0.swapQuery = none) (h2 : env1.swapQuery = none) :
    (afterStart t c true m s env0)._majflt_before = m ∧
    majfltEnd env1 = SIZE_MAX ∧
    SIZE_MAX ≠ 0 ∧
    (∀ stats : SwapStats, stats.majflt < 4294967296 →
      majfltEnd env1 ≠ stats.majflt) ∧
    (logLines ((afterStart t c true m s env0).log_end e env1)).head? =
      some (t ++ causeStr c ++ " " ++ toString (env0.heapUsed / M) ++ "M->" ++
        toString (env1.heapUsed / M) ++ "M(" ++
        toString (env1.heapCapacity / M) ++ "M) majflt(" ++
        toString m ++ "->" ++ toString SIZE_MAX ++ ")" ++
        " " ++ fmt_ms3 (e - s) ++ "ms") := by
  refine ⟨?_, ?_, by decide, ?_, ?_⟩
  · rw [afterStart_true]
    simp [h1]
  · simp [majfltEnd, h2]
  · intro stats hlt
    simp only [majfltEnd, h2, SIZE_MAX]
    omega
  · rw [logLines_log_end, afterStart_true]
    simp [endLine, usageSeg, majfltEnd, GCTraceTimeLoggerImpl.headingStr,
      hused, h1, h2, String.append_assoc]

def c2StartEnv : StartEnv := { heapUsed := 104857600, swapQuery := none }

def c2EndEnv : EndEnv :=
  { heapUsed := 62914560
    heapCapacity := 536870912
    swapQuery := none
    mallocOk := true
    pageQueryOk := false
    pageBuf := fun _ => 0 }

theorem C2_fault_read_failures_witness :
    (afterStart "Pause Young" none true 7 3 c2StartEnv)._majflt_before = 7 ∧
    majfltEnd c2EndEnv = SIZE_MAX ∧
    SIZE_MAX ≠ 0 ∧
    (∀ stats : SwapStats, stats.majflt < 4294967296 →
      majfltEnd c2EndEnv ≠ stats.majflt) ∧
    (logLines ((afterStart "Pause Young" none true 7 3
        c2StartEnv).log_end 4256003 c2EndEnv)).head? =
      some ("Pause Young" ++ causeStr none ++ " " ++
        toString (c2StartEnv.heapUsed / M) ++ "M->" ++
        toString (c2EndEnv.heapUsed / M) ++ "M(" ++
        toString (c2EndEnv.heapCapacity / M) ++ "M) majflt(" ++
        toString (7 : Nat) ++ "->" ++ toString SIZE_MAX ++ ")" ++
        " " ++ fmt_ms3 (4256003 - 3) ++ "ms") :=
  C2_fault_read_failures "Pause Young" none 7 3 4256003 c2StartEnv c2EndEnv
    (by decide) (by decide) (by decide)

def c3State : GCTraceTimeLoggerImpl := afterStart "Pause Full" none true 7 0 exStartEnv

def cFailMallocEnv : EndEnv :=
  { heapUsed := 62914560
    heapCapacity := 536870912
    swapQuery := some { majflt := 12, majflt_in_region := 0 }
    mallocOk := false
    pageQueryOk := false
    pageBuf := fun _ => 0 }

/-- C3 counterexample: a "Pause Full" end with usage tracking enabled in
which the `malloc` of the 2048-entry buffer fails — the page-index query
is not attempted at all (zero queries, not exactly one), refuting the
claim as stated. -/
theorem C3_counterexample :
    c3State._log_heap_usage = true ∧
    strContains c3State._title "Pause Full" = true ∧
    countPageQuery (c3State.log_end 4256000 cFailMallocEnv) = 0 := by
  decide

/-- C3 (amended): for a "Pause Full" end with usage tracking enabled,
provided the allocation of the 2048-entry buffer succeeds, exactly one
page-index query is attempted; if the query succeeds an additional log
line listing exactly 2048 comma-separated index values is emitted; and
the reset call is issued exactly once, as the final action, regardless of
whether the query succeeded. -/
theorem C3_page_diagnostic (st : GCTraceTimeLoggerImpl) (e : Nat)
    (env : EndEnv)
    (hflag : st._log_heap_usage = true)
    (ht : strContains st._title "Pause Full" = true)
    (hm : env.mallocOk = true) :
    countPageQuery (st.log_end e env) = 1 ∧
    (env.pageQueryOk = true →
      logLines (st.log_end e env) = [endLine st e env, pageLine env]) ∧
    (pageEntries env).length = 2048 ∧
    pageLine env = "faulty page index: " ++ String.join (pageEntries env) ∧
    countPageReset (st.log_end e env) = 1 ∧
    (st.log_end e env).getLast? = some Ev.pageIndexReset := by
  refine ⟨?_, ?_, by simp [pageEntries], rfl, ?_, ?_⟩
  · by_cases h1 : st._heap_usage_before = SIZE_MAX <;>
    by_cases h4 : env.pageQueryOk = true <;>
    simp [GCTraceTimeLoggerImpl.log_end, pauseFullEvs, countPageQuery,
      hflag, ht, hm, h1, h4]
  · intro hq
    rw [logLines_log_end]
    simp [hflag, ht, hm, hq]
  · by_cases h1 : st._heap_usage_before = SIZE_MAX <;>
    by_cases h4 : env.pageQueryOk = true <;>
    simp [GCTraceTimeLoggerImpl.log_end, pauseFullEvs, countPageReset,
      hflag, ht, hm, h1, h4]
  · rw [GCTraceTimeLoggerImpl.log_end, pauseFullEvs_pos st env hflag ht]
    rw [show
      (if st._heap_usage_before ≠ SIZE_MAX then [Ev.swapStatsQuery] else []) ++
        [Ev.logLine (endLine st e env)] ++
        ((if env.mallocOk then
          Ev.pageIndexQuery ::
            (if env.pageQueryOk then [Ev.logLine (pageLine env)] else [])
        else []) ++ [Ev.pageIndexReset]) =
      ((if st._heap_usage_before ≠ SIZE_MAX then [Ev.swapStatsQuery] else []) ++
        [Ev.logLine (endLine st e env)] ++
        (if env.mallocOk then
          Ev.pageIndexQuery ::
            (if env.pageQueryOk then [Ev.logLine (pageLine env)] else [])
        else [])) ++ [Ev.pageIndexReset] from by simp]
    exact List.getLast?_concat _

theorem C3_page_diagnostic_witness :
    countPageQuery (c3State.log_end 4256000 exEndEnv) = 1 ∧
    (exEndEnv.pageQueryOk = true →
      logLines (c3State.log_end 4256000 exEndEnv) =
        [endLine c3State 4256000 exEndEnv, pageLine exEndEnv]) ∧
    (pageEntries exEndEnv).length = 2048 ∧
    pageLine exEndEnv = "faulty page index: " ++ String.join (pageEntries exEndEnv) ∧
    countPageReset (c3State.log_end 4256000 exEndEnv) = 1 ∧
    (c3State.log_end 4256000 exEndEnv).getLast? = some Ev.pageIndexReset :=
  C3_page_diagnostic c3State 4256000 exEndEnv (by decide) (by decide) (by decide)

/-- C10: when the allocation of the 2048-entry buffer fails during the
"Pause Full" diagnostic, the page-index query is skipped entirely, no
diagnostic line is logged (the end line is the only line), but the reset
call is still issued. -/
theorem C10_malloc_failure (st : GCTraceTimeLoggerImpl) (e : Nat)
    (env : EndEnv)
    (hflag : st._log_heap_usage = true)
    (ht : strContains st._title "Pause Full" = true)
    (hm : env.mallocOk = false) :
    countPageQuery (st.log_end e env) = 0 ∧
    logLines (st.log_end e env) = [endLine st e env] ∧
    countPageReset (st.log_end e env) = 1 := by
  refine ⟨?_, ?_, ?_⟩
  · by_cases h1 : st._heap_usage_before = SIZE_MAX <;>
    simp [GCTraceTimeLoggerImpl.log_end, pauseFullEvs, countPageQuery,
      hflag, ht, hm, h1]
  · rw [logLines_log_end]
    simp [hm]
  · by_cases h1 : st._heap_usage_before = SIZE_MAX <;>
    simp [GCTraceTimeLoggerImpl.log_end, pauseFullEvs, countPageReset,
      hflag, ht, hm, h1]

theorem C10_malloc_failure_witness :
    countPageQuery (c3State.log_end 4256000 cFailMallocEnv) = 0 ∧
    logLines (c3State.log_end 4256000 cFailMallocEnv) =
      [endLine c3State 4256000 cFailMallocEnv] ∧
    countPageReset (c3State.log_end 4256000 cFailMallocEnv) = 1 :=
  C10_malloc_failure c3State 4256000 cFailMallocEnv (by decide) (by decide)
    (by decide)

/-- C4: when the `os::getTimesSecs` read at construction reports invalid
results for a sampler that would be active, the warning is logged,
`_active` is forced to false, and the destructor performs nothing for
every destruction path: no CPU-time line, no further OS read, no tracer
report. -/
theorem C4_construction_read_failure (env : CPUConsEnv)
    (hact : (env.log_is_enabled || (env.tracer_present && env.should_report)) = true)
    (hfail : env.getTimes = none) :
    CEv.logWarning cpuWarnMsg ∈ (GCTraceCPUTime.construct env).2 ∧
    (GCTraceCPUTime.construct env).1._active = false ∧
    ∀ endRead : Option TimesSecs,
      GCTraceCPUTime.destruct (GCTraceCPUTime.construct env).1 endRead = [] := by
  refine ⟨?_, ?_, ?_⟩
  · simp [GCTraceCPUTime.construct, hact, hfail]
  · simp [GCTraceCPUTime.construct, hact, hfail]
  · intro endRead
    simp [GCTraceCPUTime.destruct, GCTraceCPUTime.construct, hact, hfail]

def c4Env : CPUConsEnv :=
  { log_is_enabled := true
    tracer_present := false
    should_report := false
    getTimes := none }

theorem C4_construction_read_failure_witness :
    CEv.logWarning cpuWarnMsg ∈ (GCTraceCPUTime.construct c4Env).2 ∧
    (GCTraceCPUTime.construct c4Env).1._active = false ∧
    ∀ endRead : Option TimesSecs,
      GCTraceCPUTime.destruct (GCTraceCPUTime.construct c4Env).1 endRead = [] :=
  C4_construction_read_failure c4Env (by decide) (by decide)

/-- C5: for an active sampler whose start and end `os::getTimesSecs`
reads both succeed, the destructor performs exactly one further OS read,
emits exactly one `"User=... Sys=... Real=..."` line whose three values
are the componentwise differences end − start, and — when a tracer was
supplied — reports exactly those same three values to it. -/
theorem C5_cpu_deltas (env : CPUConsEnv) (t0 t1 : TimesSecs)
    (hact : (env.log_is_enabled || (env.tracer_present && env.should_report)) = true)
    (h0 : env.getTimes = some t0) :
    GCTraceCPUTime.destruct (GCTraceCPUTime.construct env).1 (some t1) =
      [CEv.getTimesSecs,
        CEv.logInfo (cpuLine (t1.user_time - t0.user_time)
          (t1.system_time - t0.system_time) (t1.real_time - t0.real_time))] ++
      (if env.tracer_present then
        [CEv.reportCpuTimeEvent (t1.user_time - t0.user_time)
          (t1.system_time - t0.system_time) (t1.real_time - t0.real_time)]
      else []) := by
  simp [GCTraceCPUTime.destruct, GCTraceCPUTime.construct, hact, h0]

def c5Env : CPUConsEnv :=
  { log_is_enabled := false
    tracer_present := true
    should_report := true
    getTimes := some { real_time := 100, user_time := 70, system_time := 20 } }

def c5End : TimesSecs := { real_time := 530, user_time := 250, system_time := 95 }

theorem C5_cpu_deltas_witness :
    GCTraceCPUTime.destruct (GCTraceCPUTime.construct c5Env).1 (some c5End) =
      [CEv.getTimesSecs,
        CEv.logInfo (cpuLine (c5End.user_time - 70) (c5End.system_time - 20)
          (c5End.real_time - 100))] ++
      (if c5Env.tracer_present then
        [CEv.reportCpuTimeEvent (c5End.user_time - 70) (c5End.system_time - 20)
          (c5End.real_time - 100)]
      else []) :=
  C5_cpu_deltas c5Env { real_time := 100, user_time := 70, system_time := 20 }
    c5End (by decide) (by decide)

def c8Env : CPUConsEnv :=
  { log_is_enabled := true
    tracer_present := true
    should_report := true
    getTimes := some { real_time := 0, user_time := 0, system_time := 0 } }

/-- C8 counterexample: a sampler constructed with a non-null tracer while
info-level gc+cpu logging is enabled — the short-circuit `||` in the
`_active` initialiser never evaluates `should_report_cpu_time_event`, so
the predicate is queried zero times, refuting "exactly once". -/
theorem C8_counterexample :
    c8Env.tracer_present = true ∧
    countShouldReportQuery (GCTraceCPUTime.construct c8Env).2 = 0 := by
  decide

/-- C8 (amended): for a sampler constructed with a non-null tracer, the
"is interested in CPU-time events" predicate is queried exactly once when
info-level CPU-time logging is disabled, and — because of the
short-circuit disjunction — zero times when it is enabled. -/
theorem C8_query_count (env : CPUConsEnv)
    (hp : env.tracer_present = true) :
    countShouldReportQuery (GCTraceCPUTime.construct env).2 =
      (if env.log_is_enabled then 0 else 1) := by
  by_cases hl : env.log_is_enabled = true <;>
  by_cases hs : env.should_report = true <;>
  by_cases ha : (env.log_is_enabled || (env.tracer_present && env.should_report)) = true <;>
  cases hg : env.getTimes <;>
  simp [GCTraceCPUTime.construct, countShouldReportQuery, hp, hl, hs, ha, hg]

theorem C8_query_count_witness :
    countShouldReportQuery (GCTraceCPUTime.construct c8Env).2 =
      (if c8Env.log_is_enabled then 0 else 1) :=
  C8_query_count c8Env (by decide)
